import Mathlib

/-!
Verification of the GAS (Google Apps Script) submission client
(`src/python/colab_integration.py`): the `GASClient.post_data` retry loop
with redirect-aware dispatch, `GASClient.post_batch`, and
`GASClient.test_connection`, shallowly embedded as pure Lean functions
over an explicit transport environment.
-/

namespace GAS

/-- JSON-like values, as parsed from response bodies and used for payloads.
Python `None` is `Json.null`; numbers are modelled as rationals. -/
inductive Json where
  | null : Json
  | bool : Bool → Json
  | num : Rat → Json
  | str : String → Json
  | arr : List Json → Json
  | obj : List (String × Json) → Json

/-- Association-list lookup, modelling Python `dict.get(key)` (first match;
`none` when the key is absent). -/
def Json.lookupKey : List (String × Json) → String → Option Json
  | [], _ => none
  | (k, v) :: rest, key => if k = key then some v else Json.lookupKey rest key

/-- `dict.get(key)` on an arbitrary value: `none` when not an object. -/
def Json.getField : Json → String → Option Json
  | .obj kvs, key => Json.lookupKey kvs key
  | _, _ => none

/-- Character-list prefix test (needle is a prefix of hay). -/
def isPre : List Char → List Char → Bool
  | [], _ => true
  | _ :: _, [] => false
  | a :: as, b :: bs => a = b && isPre as bs

/-- Character-list substring test (needle occurs somewhere in hay). -/
def hasSub (needle : List Char) : List Char → Bool
  | [] => isPre needle []
  | b :: t => isPre needle (b :: t) || hasSub needle t

/-- Python `needle in hay` on strings. -/
def strContains (hay needle : String) : Bool :=
  hasSub needle.toList hay.toList

/-- Python `result.get('status') == 'success'`. -/
def isSuccessVal : Option Json → Bool
  | some (.str s) => s = "success"
  | _ => false

/-- Python `result.get('code') in ['INVALID_JSON', 'MISSING_FIELDS']`
(colab_integration.py line 207). -/
def codeNonRetryable : Option Json → Bool
  | some (.str s) => s = "INVALID_JSON" || s = "MISSING_FIELDS"
  | _ => false

/-- An HTTP response as seen by the client: status code, the
`Location` header with Python default `''` (line 177), and the body as
`some` parsed JSON or `none` when `response.json()` would raise. -/
structure Resp where
  status : Nat
  location : String
  body : Option Json

/-- Transport-level exceptions raised by `requests.post` / `requests.get`:
`requests.exceptions.Timeout`, or any other `RequestException`. -/
inductive TErr where
  | timeout : TErr
  | reqError : String → TErr

/-- The transport behaviour available to one loop iteration: the result of
the initial POST and the result of the redirect-following GET (consulted
only when the POST answered 302 to a non-login host). -/
structure AttemptEnv where
  postRes : Except TErr Resp
  getRes : Except TErr Resp

/-- Observable I/O events of `post_data`: the initial POST (recording
whether an Authorization header was attached), the redirect-following GET
(recording its URL and whether an Authorization header was attached), and
`time.sleep` of the given number of seconds. -/
inductive Event where
  | postReq : Bool → Event
  | getReq : String → Bool → Event
  | sleep : Nat → Event

/-- Terminal results of `post_data`: a returned dict (status success, or the
last non-success dict returned at line 213), or one of the raised
exceptions (ValueError for missing fields / login redirect / non-retryable
server code, HTTPError, Timeout, RequestException, an uncaught
AttributeError when the body is not a dict, and the generic
RequestException of line 236). -/
inductive Outcome where
  | success : Json → Outcome
  | rejected : Json → Outcome
  | validationError : List String → Outcome
  | authDenied : Outcome
  | serverValidation : Json → Outcome
  | httpError : Nat → Outcome
  | timedOut : Outcome
  | requestFailed : String → Outcome
  | attrError : Outcome
  | allFailed : Outcome

/-- How a single loop iteration ends: a terminal return/raise, or a failure
handed to one of the retry handlers (lines 202-234). -/
inductive StepRes where
  | done : Outcome → StepRes
  | retryRejected : Json → StepRes
  | retryTimeout : StepRes
  | retryHttp : Nat → StepRes
  | retryReq : String → StepRes

/-- Classification of the final (post-redirect) response, lines 194-213:
`response.raise_for_status()` raises HTTPError for status 400-599;
`response.json()` failure raises a `RequestException`; a non-dict body
makes `result.get` raise AttributeError; then the status / code fields
decide success, non-retryable ValueError, or the retryable else-branch. -/
def finishResp (r : Resp) : StepRes :=
  if 400 ≤ r.status ∧ r.status < 600 then .retryHttp r.status
  else
    match r.body with
    | none => .retryReq "invalid json"
    | some j =>
      match j with
      | .obj kvs =>
        if isSuccessVal (Json.lookupKey kvs "status") then .done (.success (.obj kvs))
        else if codeNonRetryable (Json.lookupKey kvs "code") then
          .done (.serverValidation (.obj kvs))
        else .retryRejected (.obj kvs)
      | _ => .done .attrError

/-- One iteration of the retry loop body (lines 163-213): POST without
following redirects; on 302 read `Location` (default `''`), raise
ValueError if it contains `accounts.google.com`, otherwise GET the
redirect target with no headers; then classify the final response. -/
def oneAttempt (hasAuth : Bool) (e : AttemptEnv) : StepRes × List Event :=
  match e.postRes with
  | .error .timeout => (.retryTimeout, [.postReq hasAuth])
  | .error (.reqError m) => (.retryReq m, [.postReq hasAuth])
  | .ok r0 =>
    if r0.status = 302 then
      if strContains r0.location "accounts.google.com" then
        (.done .authDenied, [.postReq hasAuth])
      else
        match e.getRes with
        | .error .timeout => (.retryTimeout, [.postReq hasAuth, .getReq r0.location false])
        | .error (.reqError m) => (.retryReq m, [.postReq hasAuth, .getReq r0.location false])
        | .ok r1 => (finishResp r1, [.postReq hasAuth, .getReq r0.location false])
    else
      (finishResp r0, [.postReq hasAuth])

/-- The retry loop `for attempt in range(self.max_retries)` with the
handlers of lines 202-234, by recursion on the number of remaining
iterations (`attempt = maxRetries - remaining` is the 0-indexed loop
variable; `remaining = 0` after the loop reaches line 236). On a
non-final iteration every retryable failure sleeps `2 ** attempt`
(`_wait_before_retry`); on the final iteration the else-branch returns the
dict, Timeout and RequestException re-raise, and HTTPError re-raises also
earlier whenever the status is below 500. -/
def runFrom (hasAuth : Bool) (maxRetries : Nat) (env : Nat → AttemptEnv) :
    (remaining : Nat) → Outcome × List Event
  | 0 => (.allFailed, [])
  | r + 1 =>
    let attempt := maxRetries - (r + 1)
    let step := oneAttempt hasAuth (env attempt)
    match step.1 with
    | .done o => (o, step.2)
    | .retryRejected body =>
      if r = 0 then (.rejected body, step.2)
      else
        let rest := runFrom hasAuth maxRetries env r
        (rest.1, step.2 ++ [.sleep (2 ^ attempt)] ++ rest.2)
    | .retryTimeout =>
      if r = 0 then (.timedOut, step.2)
      else
        let rest := runFrom hasAuth maxRetries env r
        (rest.1, step.2 ++ [.sleep (2 ^ attempt)] ++ rest.2)
    | .retryHttp s =>
      if r = 0 ∨ s < 500 then (.httpError s, step.2)
      else
        let rest := runFrom hasAuth maxRetries env r
        (rest.1, step.2 ++ [.sleep (2 ^ attempt)] ++ rest.2)
    | .retryReq m =>
      if r = 0 then (.requestFailed m, step.2)
      else
        let rest := runFrom hasAuth maxRetries env r
        (rest.1, step.2 ++ [.sleep (2 ^ attempt)] ++ rest.2)

/-- Python `f not in data` on the payload dict, negated. -/
def hasKey (payload : List (String × Json)) (k : String) : Bool :=
  payload.any (fun p => p.1 = k)

/-- `required_fields = ['id', 'result', 'score']` (line 153). -/
def requiredFields : List String := ["id", "result", "score"]

/-- `GASClient.post_data` (lines 135-236): validate the required fields
(raising ValueError before any network call when some are missing), then
run the retry loop. Returns the outcome together with the ordered list of
I/O events performed. -/
def post_data (hasAuth : Bool) (maxRetries : Nat) (payload : List (String × Json))
    (env : Nat → AttemptEnv) : Outcome × List Event :=
  match requiredFields.filter (fun f => ! hasKey payload f) with
  | [] => runFrom hasAuth maxRetries env maxRetries
  | m => (.validationError m, [])

/-- Best-effort rendering of a JSON value, abstracting Python `str()` as it
appears inside interpolated error messages; the exact text of these
messages is incidental to the control flow. -/
def strOfJson : Json → String
  | .null => "None"
  | .bool true => "True"
  | .bool false => "False"
  | .num q => toString q
  | .str s => s
  | .arr _ => "list"
  | .obj _ => "dict"

/-- `result.get('message', 'Unknown error')` rendered as a string
(line 203). -/
def messageField (j : Json) : String :=
  match j.getField "message" with
  | some v => strOfJson v
  | none => "Unknown error"

/-- Python `str(e)` of each exception `post_data` can raise, as recorded by
`post_batch`; transport-library texts are abstracted, the ValueError texts
follow lines 156, 182-186, 208 and 236. -/
def Outcome.message : Outcome → String
  | .success _ => ""
  | .rejected _ => ""
  | .validationError m => "Missing required fields: " ++ String.intercalate ", " m
  | .authDenied =>
      "🚨 Access denied: Redirected to login page.\n" ++
      "Your organization may be blocking anonymous access.\n" ++
      "Try using authenticated mode: GASClient(..., use_auth=True)"
  | .serverValidation j => "Validation error: " ++ messageField j
  | .httpError s => toString s ++ " Error"
  | .timedOut => "timed out"
  | .requestFailed m => m
  | .attrError => "AttributeError"
  | .allFailed => "All retry attempts failed"

/-- The entry `post_batch` records for one item (lines 251-259): the dict
returned by `post_data`, or, when `post_data` raised, the error dict with
keys status / message / item. -/
def itemEntry (o : Outcome) (item : List (String × Json)) : Json :=
  match o with
  | .success j => j
  | .rejected j => j
  | e => Json.obj [("status", .str "error"), ("message", .str e.message), ("item", .obj item)]

/-- The sequential loop of `post_batch` (lines 248-259); `i` is the index of
the first pending item, and `benv i` is the transport behaviour the
`post_data` call for item `i` observes. -/
def batchLoop (hasAuth : Bool) (maxRetries : Nat) (benv : Nat → Nat → AttemptEnv) :
    List (List (String × Json)) → Nat → List Json
  | [], _ => []
  | item :: rest, i =>
    itemEntry (post_data hasAuth maxRetries item (benv i)).1 item
      :: batchLoop hasAuth maxRetries benv rest (i + 1)

/-- `r.get('status') == 'success'` on a batch result entry (line 262). -/
def isSuccessEntry (j : Json) : Bool :=
  isSuccessVal (j.getField "status")

/-- `GASClient.post_batch` (lines 238-265): process the items strictly in
order, recording one entry each, then return the entries together with
`sum(1 for r in results if r.get('status') == 'success')`. -/
def post_batch (hasAuth : Bool) (maxRetries : Nat) (items : List (List (String × Json)))
    (benv : Nat → Nat → AttemptEnv) : List Json × Nat :=
  let results := batchLoop hasAuth maxRetries benv items 0
  (results, (results.map (fun r => if isSuccessEntry r then 1 else 0)).sum)

/-- The response `test_connection` observes from its single
`requests.post(..., allow_redirects=True)`: the final status code after
transparent redirect following and the body as `some` parsed JSON, or a
transport exception. -/
structure ProbeResp where
  status : Nat
  body : Option Json

/-- `GASClient.test_connection` (lines 273-322): true exactly when the POST
succeeds with final status 200 and a JSON dict body whose `status` field
equals `success`; a non-200 status, an unparsable body, a non-dict body
(whose `result.get` raises AttributeError into the outer handler) and
every transport exception all yield false. -/
def test_connection (probe : Except TErr ProbeResp) : Bool :=
  match probe with
  | .error _ => false
  | .ok r =>
    if r.status = 200 then
      match r.body with
      | none => false
      | some j =>
        match j with
        | .obj kvs => isSuccessVal (Json.lookupKey kvs "status")
        | _ => false
    else false

/-! ### Concrete fixtures used to instantiate the theorems -/

/-- A payload carrying all three required fields. -/
def okPayload : List (String × Json) :=
  [("id", .num 101), ("result", .str "x"), ("score", .num 1)]

/-- A payload whose `id` key is present but bound to `null`. -/
def nullPayload : List (String × Json) :=
  [("id", .null), ("result", .str "x"), ("score", .num 1)]

/-- A transport in which every request times out. -/
def timeoutEnv : Nat → AttemptEnv := fun _ => ⟨.error .timeout, .error .timeout⟩

/-- A transport whose POST answers 302 towards the login domain. -/
def loginEnv : Nat → AttemptEnv := fun _ =>
  ⟨.ok ⟨302, "https://accounts.google.com/signin", none⟩, .error .timeout⟩

/-- The success body of the spec's example: row 7, executionTime 1.2. -/
def successBody : Json :=
  .obj [("status", .str "success"), ("row", .num 7), ("executionTime", .num 1.2)]

/-- A transport whose POST answers 302 towards a content host and whose GET
answers 200 with the success body. -/
def contentEnv : Nat → AttemptEnv := fun _ =>
  ⟨.ok ⟨302, "https://lh3.googleusercontent.com/abc", none⟩, .ok ⟨200, "", some successBody⟩⟩

/-- A transport whose POST answers directly with status 303 and the success
body: a final response outside the 2xx range that `raise_for_status` does
not reject. -/
def env303 : Nat → AttemptEnv := fun _ =>
  ⟨.ok ⟨303, "", some successBody⟩, .error .timeout⟩

/-- A rejection body carrying the non-retryable code INVALID_JSON. -/
def rejBody : Json :=
  .obj [("status", .str "error"), ("code", .str "INVALID_JSON"), ("message", .str "bad")]

/-- A transport answering 200 with the non-retryable rejection body. -/
def rejEnv : Nat → AttemptEnv := fun _ => ⟨.ok ⟨200, "", some rejBody⟩, .error .timeout⟩

/-- A rejection body carrying a retryable (unknown) code. -/
def softBody : Json :=
  .obj [("status", .str "error"), ("code", .str "DUPLICATE"), ("message", .str "dup")]

/-- A transport answering 200 with the retryable rejection body. -/
def softEnv : Nat → AttemptEnv := fun _ => ⟨.ok ⟨200, "", some softBody⟩, .error .timeout⟩

/-- A transport answering directly with status 503 and no parsable body. -/
def env503 : Nat → AttemptEnv := fun _ => ⟨.ok ⟨503, "", none⟩, .error .timeout⟩

/-- A transport answering directly with status 404 and no parsable body. -/
def env404 : Nat → AttemptEnv := fun _ => ⟨.ok ⟨404, "", none⟩, .error .timeout⟩

/-- A per-item transport for batch runs: every item's POST answers 200 with
the success body. -/
def batchEnv : Nat → Nat → AttemptEnv := fun _ _ =>
  ⟨.ok ⟨200, "", some successBody⟩, .error .timeout⟩

/-- The event trace of a run whose every attempt issues one POST (no
redirect) and then backs off: `r` remaining attempts starting at 0-indexed
attempt `a`. -/
def softTrace (hasAuth : Bool) : Nat → Nat → List Event
  | _, 0 => []
  | _, 1 => [.postReq hasAuth]
  | a, r + 2 => [.postReq hasAuth, .sleep (2 ^ a)] ++ softTrace hasAuth (a + 1) (r + 1)

/-! ### Helper lemmas -/

lemma isSuccessVal_iff (o : Option Json) :
    isSuccessVal o = true ↔ o = some (.str "success") := by
  cases o with
  | none => simp [isSuccessVal]
  | some v => cases v <;> simp [isSuccessVal]

/-! ### Claim theorems -/

/-- C2: for every configuration with maxRetries ≥ 1 and every payload
passing validation, a first POST answered by 302 whose Location contains
the login domain makes `post_data` raise the access-denied ValueError
after exactly one attempt: no retry, no backoff sleep, a single POST
event. -/
theorem C2_authDenied (hasAuth : Bool) (mr : Nat) (payload : List (String × Json))
    (env : Nat → AttemptEnv) (r0 : Resp)
    (hval : requiredFields.filter (fun f => ! hasKey payload f) = [])
    (hmr : 1 ≤ mr)
    (hpost : (env 0).postRes = .ok r0)
    (hstat : r0.status = 302)
    (hloc : strContains r0.location "accounts.google.com" = true) :
    post_data hasAuth mr payload env = (.authDenied, [.postReq hasAuth]) := by
  obtain ⟨r, rfl⟩ : ∃ r, mr = r + 1 := ⟨mr - 1, by omega⟩
  unfold post_data
  rw [hval]
  simp [runFrom, oneAttempt, hpost, hstat, hloc]

/-- Witness for C2 at a concrete input: maxRetries 5, a valid payload, and
a 302 towards accounts.google.com. -/
theorem C2_authDenied_witness :
    post_data false 5 okPayload loginEnv = (.authDenied, [.postReq false]) :=
  C2_authDenied false 5 okPayload loginEnv ⟨302, "https://accounts.google.com/signin", none⟩
    rfl (by omega) rfl rfl rfl

/-- C1: for every configuration with maxRetries ≥ 1 and every payload
passing validation, a 302 towards a non-login host followed by a 200 GET
response whose JSON dict body has status success makes `post_data` return
that body (hence its row and executionTime fields) after exactly one
attempt, the redirect being followed by a GET that carries no
Authorization header. -/
theorem C1_redirect_success (hasAuth : Bool) (mr : Nat) (payload : List (String × Json))
    (env : Nat → AttemptEnv) (r0 r1 : Resp) (kvs : List (String × Json))
    (hval : requiredFields.filter (fun f => ! hasKey payload f) = [])
    (hmr : 1 ≤ mr)
    (hpost : (env 0).postRes = .ok r0)
    (hstat : r0.status = 302)
    (hloc : strContains r0.location "accounts.google.com" = false)
    (hget : (env 0).getRes = .ok r1)
    (hstat1 : r1.status = 200)
    (hbody : r1.body = some (.obj kvs))
    (hsucc : Json.lookupKey kvs "status" = some (.str "success")) :
    post_data hasAuth mr payload env =
      (.success (.obj kvs), [.postReq hasAuth, .getReq r0.location false]) := by
  obtain ⟨r, rfl⟩ : ∃ r, mr = r + 1 := ⟨mr - 1, by omega⟩
  unfold post_data
  rw [hval]
  simp [runFrom, oneAttempt, finishResp, hpost, hstat, hloc, hget, hstat1, hbody,
    isSuccessVal, hsucc]

/-- Witness for C1 at the spec's concrete interaction: 302 to a
googleusercontent host, then 200 with row 7 and executionTime 1.2. -/
theorem C1_redirect_success_witness :
    post_data false 3 okPayload contentEnv =
      (.success successBody, [.postReq false, .getReq "https://lh3.googleusercontent.com/abc" false]) :=
  C1_redirect_success false 3 okPayload contentEnv
    ⟨302, "https://lh3.googleusercontent.com/abc", none⟩ ⟨200, "", some successBody⟩
    [("status", .str "success"), ("row", .num 7), ("executionTime", .num 1.2)]
    rfl (by omega) rfl rfl rfl rfl rfl rfl rfl

/-- C3 counterexample: a payload whose `id` key is present but null passes
the validation of line 154 (which tests only membership), so `post_data`
does issue a network request — the run performs one POST and ends in the
transport timeout, not in a ValidationError. -/
theorem C3_null_counterexample :
    Json.lookupKey nullPayload "id" = some .null ∧
    post_data false 1 nullPayload timeoutEnv = (.timedOut, [.postReq false]) :=
  ⟨rfl, rfl⟩

/-- C3 amended: for every payload in which any of the keys id, result,
score is ABSENT, `post_data` fails immediately with the ValidationError
outcome listing the missing keys and performs no network I/O; a key that
is present with a null value passes validation. -/
theorem C3_missing_key (hasAuth : Bool) (mr : Nat) (payload : List (String × Json))
    (env : Nat → AttemptEnv)
    (h : hasKey payload "id" = false ∨ hasKey payload "result" = false ∨
      hasKey payload "score" = false) :
    post_data hasAuth mr payload env =
      (.validationError (requiredFields.filter (fun f => ! hasKey payload f)), []) ∧
    requiredFields.filter (fun f => ! hasKey payload f) ≠ [] := by
  have hne : requiredFields.filter (fun f => ! hasKey payload f) ≠ [] := by
    cases hid : hasKey payload "id" <;> cases hres : hasKey payload "result" <;>
      cases hsc : hasKey payload "score" <;>
      simp_all [requiredFields, List.filter]
  refine ⟨?_, hne⟩
  unfold post_data
  cases hm : requiredFields.filter (fun f => ! hasKey payload f) with
  | nil => exact absurd hm hne
  | cons a t => rfl

/-- Witness for C3 amended: a payload holding only `id` is rejected with
the two missing keys and an empty event trace. -/
theorem C3_missing_key_witness :
    post_data false 3 [("id", Json.num 1)] timeoutEnv =
      (.validationError ["result", "score"], []) :=
  (C3_missing_key false 3 [("id", Json.num 1)] timeoutEnv (Or.inr (Or.inl rfl))).1

/-- C4: with maxRetries = 3, a valid payload and a transport that times out
on every attempt, `post_data` performs exactly 3 POST attempts with sleeps
of 1 then 2 seconds between them (none after the last) and re-raises the
timeout. -/
theorem C4_timeout_backoff (hasAuth : Bool) (payload : List (String × Json))
    (env : Nat → AttemptEnv)
    (hval : requiredFields.filter (fun f => ! hasKey payload f) = [])
    (henv : ∀ k, k < 3 → (env k).postRes = Except.error TErr.timeout) :
    post_data hasAuth 3 payload env =
      (.timedOut, [.postReq hasAuth, .sleep 1, .postReq hasAuth, .sleep 2, .postReq hasAuth]) := by
  have h0 := henv 0 (by omega)
  have h1 := henv 1 (by omega)
  have h2 := henv 2 (by omega)
  unfold post_data
  rw [hval]
  simp [runFrom, oneAttempt, h0, h1, h2]

/-- Witness for C4: the valid sample payload against the always-timing-out
transport. -/
theorem C4_timeout_backoff_witness :
    post_data false 3 okPayload timeoutEnv =
      (.timedOut, [.postReq false, .sleep 1, .postReq false, .sleep 2, .postReq false]) :=
  C4_timeout_backoff false okPayload timeoutEnv rfl (fun _ _ => rfl)

lemma finishResp_soft (r : Resp) (kvs : List (String × Json))
    (hh : ¬(400 ≤ r.status ∧ r.status < 600))
    (hb : r.body = some (.obj kvs))
    (hns : isSuccessVal (Json.lookupKey kvs "status") = false)
    (hnr : codeNonRetryable (Json.lookupKey kvs "code") = false) :
    finishResp r = .retryRejected (.obj kvs) := by
  unfold finishResp
  rw [if_neg hh, hb]
  simp [hns, hnr]

lemma oneAttempt_direct (hasAuth : Bool) (e : AttemptEnv) (r0 : Resp)
    (hpost : e.postRes = .ok r0) (hstat : r0.status ≠ 302) :
    oneAttempt hasAuth e = (finishResp r0, [.postReq hasAuth]) := by
  unfold oneAttempt
  rw [hpost]
  simp [hstat]

lemma runFrom_soft (hasAuth : Bool) (mr : Nat) (env : Nat → AttemptEnv)
    (resp : Nat → Resp) (kvs : Nat → List (String × Json))
    (hp : ∀ k, k < mr → (env k).postRes = .ok (resp k))
    (hs : ∀ k, k < mr → (resp k).status ≠ 302)
    (hh : ∀ k, k < mr → ¬(400 ≤ (resp k).status ∧ (resp k).status < 600))
    (hb : ∀ k, k < mr → (resp k).body = some (.obj (kvs k)))
    (hns : ∀ k, k < mr → isSuccessVal (Json.lookupKey (kvs k) "status") = false)
    (hnr : ∀ k, k < mr → codeNonRetryable (Json.lookupKey (kvs k) "code") = false) :
    ∀ r, 1 ≤ r → r ≤ mr →
      runFrom hasAuth mr env r =
        (.rejected (.obj (kvs (mr - 1))), softTrace hasAuth (mr - r) r) := by
  intro r
  induction r with
  | zero => omega
  | succ r ih =>
    intro _ hle
    have hak : mr - (r + 1) < mr := by omega
    have hstep : oneAttempt hasAuth (env (mr - (r + 1))) =
        (.retryRejected (.obj (kvs (mr - (r + 1)))), [.postReq hasAuth]) := by
      rw [oneAttempt_direct hasAuth _ _ (hp _ hak) (hs _ hak),
        finishResp_soft _ _ (hh _ hak) (hb _ hak) (hns _ hak) (hnr _ hak)]
    cases r with
    | zero =>
      unfold runFrom
      simp [hstep, softTrace]
    | succ r' =>
      have hrec := ih (by omega) (by omega)
      have harith : mr - (r' + 1 + 1) + 1 = mr - (r' + 1) := by omega
      unfold runFrom
      simp [hstep, hrec, softTrace, harith]

/-- C5: (a) when the parsed final body on attempt 1 is non-success and its
code field is INVALID_JSON or MISSING_FIELDS, `post_data` raises the
validation ValueError immediately after one attempt, with no backoff and
without consuming remaining retries; (b) when every attempt's final body
is non-success with a code outside that set, `post_data` retries with
exponential backoff and returns the last rejection body after the final
attempt. -/
theorem C5_server_codes :
    (∀ (hasAuth : Bool) (mr : Nat) (payload : List (String × Json))
      (env : Nat → AttemptEnv) (r0 : Resp) (kvs : List (String × Json)),
      requiredFields.filter (fun f => ! hasKey payload f) = [] →
      1 ≤ mr →
      (env 0).postRes = .ok r0 →
      r0.status ≠ 302 →
      ¬(400 ≤ r0.status ∧ r0.status < 600) →
      r0.body = some (.obj kvs) →
      isSuccessVal (Json.lookupKey kvs "status") = false →
      codeNonRetryable (Json.lookupKey kvs "code") = true →
      post_data hasAuth mr payload env =
        (.serverValidation (.obj kvs), [.postReq hasAuth])) ∧
    (∀ (hasAuth : Bool) (mr : Nat) (payload : List (String × Json))
      (env : Nat → AttemptEnv) (resp : Nat → Resp) (kvs : Nat → List (String × Json)),
      requiredFields.filter (fun f => ! hasKey payload f) = [] →
      1 ≤ mr →
      (∀ k, k < mr → (env k).postRes = .ok (resp k)) →
      (∀ k, k < mr → (resp k).status ≠ 302) →
      (∀ k, k < mr → ¬(400 ≤ (resp k).status ∧ (resp k).status < 600)) →
      (∀ k, k < mr → (resp k).body = some (.obj (kvs k))) →
      (∀ k, k < mr → isSuccessVal (Json.lookupKey (kvs k) "status") = false) →
      (∀ k, k < mr → codeNonRetryable (Json.lookupKey (kvs k) "code") = false) →
      post_data hasAuth mr payload env =
        (.rejected (.obj (kvs (mr - 1))), softTrace hasAuth 0 mr)) := by
  constructor
  · intro hasAuth mr payload env r0 kvs hval hmr hpost hstat hh hbody hns hnr
    obtain ⟨r, rfl⟩ : ∃ r, mr = r + 1 := ⟨mr - 1, by omega⟩
    unfold post_data
    rw [hval]
    unfold runFrom
    simp only [Nat.sub_self]
    rw [oneAttempt_direct hasAuth _ _ hpost hstat]
    unfold finishResp
    rw [if_neg hh, hbody]
    simp [hns, hnr]
  · intro hasAuth mr payload env resp kvs hval hmr hp hs hh hb hns hnr
    unfold post_data
    rw [hval]
    have := runFrom_soft hasAuth mr env resp kvs hp hs hh hb hns hnr mr hmr (le_refl mr)
    rwa [Nat.sub_self] at this

/-- Witness for C5 at concrete inputs: (a) a 200 response carrying code
INVALID_JSON is terminal on attempt 1 of 3; (b) with maxRetries 2 a
retryable code is retried once after a 1-second sleep and the last
rejection body is returned. -/
theorem C5_server_codes_witness :
    post_data false 3 okPayload rejEnv = (.serverValidation rejBody, [.postReq false]) ∧
    post_data false 2 okPayload softEnv =
      (.rejected softBody, [.postReq false, .sleep 1, .postReq false]) := by
  constructor
  · exact C5_server_codes.1 false 3 okPayload rejEnv ⟨200, "", some rejBody⟩
      [("status", .str "error"), ("code", .str "INVALID_JSON"), ("message", .str "bad")]
      rfl (by omega) rfl (by simp) (by simp) rfl rfl rfl
  · exact C5_server_codes.2 false 2 okPayload softEnv (fun _ => ⟨200, "", some softBody⟩)
      (fun _ => [("status", .str "error"), ("code", .str "DUPLICATE"), ("message", .str "dup")])
      rfl (by omega) (fun _ _ => rfl) (fun _ _ => by simp) (fun _ _ => by simp)
      (fun _ _ => rfl) (fun _ _ => rfl) (fun _ _ => rfl)

lemma finishResp_http (r : Resp) (h4 : 400 ≤ r.status) (h6 : r.status < 600) :
    finishResp r = .retryHttp r.status := by
  unfold finishResp
  rw [if_pos ⟨h4, h6⟩]

/-- C6 counterexample: a final response with status 303 — outside the 2xx
range — and a success JSON body is not treated as an HTTP error:
`raise_for_status` (modelled on 400-599) does not fire and `post_data`
returns Success instead of HttpError(303). -/
theorem C6_non2xx_counterexample :
    (env303 0).postRes = Except.ok ⟨303, "", some successBody⟩ ∧
    (post_data false 1 okPayload env303).1 = .success successBody :=
  ⟨rfl, rfl⟩

/-- C6 amended: for every final response whose status is in the 4xx or 5xx
range (400-599), the attempt is an HTTP error: (a) a 4xx status is
terminal with HttpError on the first attempt for any maxRetries ≥ 1; (b) a
5xx status with attempts remaining retries after a 1-second backoff and
continues with the remaining attempts; (c) a 5xx status with no attempt
remaining is terminal with HttpError. Statuses outside 400-599 are not
treated as HTTP errors. -/
theorem C6_http_ranges :
    (∀ (hasAuth : Bool) (mr : Nat) (payload : List (String × Json))
      (env : Nat → AttemptEnv) (r0 : Resp),
      requiredFields.filter (fun f => ! hasKey payload f) = [] →
      1 ≤ mr →
      (env 0).postRes = .ok r0 →
      r0.status ≠ 302 →
      400 ≤ r0.status → r0.status < 500 →
      post_data hasAuth mr payload env = (.httpError r0.status, [.postReq hasAuth])) ∧
    (∀ (hasAuth : Bool) (mr : Nat) (payload : List (String × Json))
      (env : Nat → AttemptEnv) (r0 : Resp),
      requiredFields.filter (fun f => ! hasKey payload f) = [] →
      2 ≤ mr →
      (env 0).postRes = .ok r0 →
      r0.status ≠ 302 →
      500 ≤ r0.status → r0.status < 600 →
      post_data hasAuth mr payload env =
        ((runFrom hasAuth mr env (mr - 1)).1,
          [.postReq hasAuth, .sleep 1] ++ (runFrom hasAuth mr env (mr - 1)).2)) ∧
    (∀ (hasAuth : Bool) (payload : List (String × Json))
      (env : Nat → AttemptEnv) (r0 : Resp),
      requiredFields.filter (fun f => ! hasKey payload f) = [] →
      (env 0).postRes = .ok r0 →
      r0.status ≠ 302 →
      500 ≤ r0.status → r0.status < 600 →
      post_data hasAuth 1 payload env = (.httpError r0.status, [.postReq hasAuth])) := by
  refine ⟨?_, ?_, ?_⟩
  · intro hasAuth mr payload env r0 hval hmr hpost hstat h4 h5
    obtain ⟨r, rfl⟩ : ∃ r, mr = r + 1 := ⟨mr - 1, by omega⟩
    have hstep : oneAttempt hasAuth (env 0) = (.retryHttp r0.status, [.postReq hasAuth]) := by
      rw [oneAttempt_direct hasAuth _ _ hpost hstat, finishResp_http r0 h4 (by omega)]
    unfold post_data
    rw [hval]
    unfold runFrom
    simp [hstep, h5]
  · intro hasAuth mr payload env r0 hval hmr hpost hstat h5 h6
    obtain ⟨r, rfl⟩ : ∃ r, mr = r + 2 := ⟨mr - 2, by omega⟩
    have hstep : oneAttempt hasAuth (env 0) = (.retryHttp r0.status, [.postReq hasAuth]) := by
      rw [oneAttempt_direct hasAuth _ _ hpost hstat, finishResp_http r0 (by omega) h6]
    have hns : ¬ (r0.status < 500) := by omega
    unfold post_data
    rw [hval]
    conv_lhs => unfold runFrom
    simp [hstep, hns]
  · intro hasAuth payload env r0 hval hpost hstat h5 h6
    have hstep : oneAttempt hasAuth (env 0) = (.retryHttp r0.status, [.postReq hasAuth]) := by
      rw [oneAttempt_direct hasAuth _ _ hpost hstat, finishResp_http r0 (by omega) h6]
    unfold post_data
    rw [hval]
    unfold runFrom
    simp [hstep]

/-- Witness for C6 amended at concrete inputs: a 404 is terminal on attempt
1 of 3; a 503 with maxRetries 2 is retried once after a 1-second sleep and
then re-raised; a 503 with maxRetries 1 is terminal. -/
theorem C6_http_ranges_witness :
    post_data false 3 okPayload env404 = (.httpError 404, [.postReq false]) ∧
    post_data false 2 okPayload env503 =
      (.httpError 503, [.postReq false, .sleep 1, .postReq false]) ∧
    post_data false 1 okPayload env503 = (.httpError 503, [.postReq false]) := by
  refine ⟨?_, ?_, ?_⟩
  · exact C6_http_ranges.1 false 3 okPayload env404 ⟨404, "", none⟩
      rfl (by omega) rfl (by simp) (by decide) (by decide)
  · exact C6_http_ranges.2.1 false 2 okPayload env503 ⟨503, "", none⟩
      rfl (by omega) rfl (by simp) (by decide) (by decide)
  · exact C6_http_ranges.2.2 false okPayload env503 ⟨503, "", none⟩
      rfl rfl (by simp) (by decide) (by decide)

lemma batchLoop_spec (hasAuth : Bool) (mr : Nat) (benv : Nat → Nat → AttemptEnv) :
    ∀ (items : List (List (String × Json))) (i0 : Nat),
      (batchLoop hasAuth mr benv items i0).length = items.length ∧
      ∀ i (h : i < items.length),
        (batchLoop hasAuth mr benv items i0)[i]? =
          some (itemEntry (post_data hasAuth mr (items.get ⟨i, h⟩) (benv (i0 + i))).1
            (items.get ⟨i, h⟩)) := by
  intro items
  induction items with
  | nil =>
    intro i0
    refine ⟨rfl, ?_⟩
    intro i h
    simp at h
  | cons a t ih =>
    intro i0
    refine ⟨by simp [batchLoop, (ih (i0 + 1)).1], ?_⟩
    intro i h
    cases i with
    | zero => simp [batchLoop]
    | succ j =>
      have hj : j < t.length := by simpa using h
      have hrec := (ih (i0 + 1)).2 j hj
      simp only [batchLoop, List.getElem?_cons_succ]
      rw [show i0 + 1 + j = i0 + (j + 1) from by omega] at hrec
      exact hrec

/-- C7: `post_batch` produces exactly one entry per input item,
index-aligned: the entry at index i is exactly the record of running
`post_data` on item i with item i's own transport, independent of every
other item — so a failure on one item never prevents the next from being
attempted, and `post_batch` itself always returns a list. -/
theorem C7_batch_alignment (hasAuth : Bool) (mr : Nat)
    (items : List (List (String × Json))) (benv : Nat → Nat → AttemptEnv) :
    (post_batch hasAuth mr items benv).1.length = items.length ∧
    ∀ i (h : i < items.length),
      (post_batch hasAuth mr items benv).1[i]? =
        some (itemEntry (post_data hasAuth mr (items.get ⟨i, h⟩) (benv i)).1
          (items.get ⟨i, h⟩)) := by
  have hspec := batchLoop_spec hasAuth mr benv items 0
  refine ⟨hspec.1, ?_⟩
  intro i h
  have := hspec.2 i h
  rwa [Nat.zero_add] at this

/-- Witness for C7: a three-item batch whose middle item is invalid; the
middle entry is the validation-error record and the third item is still
processed and succeeds. -/
theorem C7_batch_alignment_witness :
    (post_batch false 1 [okPayload, [("id", Json.num 1)], okPayload] batchEnv).1.length = 3 ∧
    (post_batch false 1 [okPayload, [("id", Json.num 1)], okPayload] batchEnv).1[1]? =
      some (itemEntry (post_data false 1 [("id", Json.num 1)] (batchEnv 1)).1
        [("id", Json.num 1)]) ∧
    (post_batch false 1 [okPayload, [("id", Json.num 1)], okPayload] batchEnv).1[2]? =
      some (itemEntry (post_data false 1 okPayload (batchEnv 2)).1 okPayload) := by
  refine ⟨(C7_batch_alignment false 1 _ batchEnv).1, ?_, ?_⟩
  · exact (C7_batch_alignment false 1 [okPayload, [("id", Json.num 1)], okPayload] batchEnv).2
      1 (by decide)
  · exact (C7_batch_alignment false 1 [okPayload, [("id", Json.num 1)], okPayload] batchEnv).2
      2 (by decide)

lemma sum_ite_filter (p : Json → Bool) :
    ∀ l : List Json, (l.map (fun r => if p r then 1 else 0)).sum = (l.filter p).length := by
  intro l
  induction l with
  | nil => rfl
  | cons a t ih => cases h : p a <;> simp [List.filter_cons, h, ih] <;> omega

/-- C8: the success count `post_batch` returns alongside the ordered entry
list is exactly the number of entries whose status field equals
success. -/
theorem C8_success_count (hasAuth : Bool) (mr : Nat)
    (items : List (List (String × Json))) (benv : Nat → Nat → AttemptEnv) :
    (post_batch hasAuth mr items benv).2 =
      ((post_batch hasAuth mr items benv).1.filter isSuccessEntry).length := by
  simp [post_batch, sum_ite_filter]

lemma finishResp_no_allFailed (r : Resp) : finishResp r ≠ .done .allFailed := by
  obtain ⟨s, loc, body⟩ := r
  by_cases hh : 400 ≤ s ∧ s < 600
  · simp [finishResp, hh]
  · cases body with
    | none => simp [finishResp, hh]
    | some j => cases j <;> simp [finishResp, hh] <;> split_ifs <;> simp

lemma oneAttempt_no_allFailed (hasAuth : Bool) (e : AttemptEnv) :
    (oneAttempt hasAuth e).1 ≠ .done .allFailed := by
  obtain ⟨post, get⟩ := e
  cases post with
  | error te => cases te <;> simp [oneAttempt]
  | ok r0 =>
    by_cases h302 : r0.status = 302
    · by_cases hloc : strContains r0.location "accounts.google.com" = true
      · simp [oneAttempt, h302, hloc]
      · cases get with
        | error te => cases te <;> simp [oneAttempt, h302, hloc]
        | ok r1 => simp [oneAttempt, h302, hloc, finishResp_no_allFailed r1]
    · simp [oneAttempt, h302, finishResp_no_allFailed r0]

lemma runFrom_no_allFailed (hasAuth : Bool) (mr : Nat) (env : Nat → AttemptEnv) :
    ∀ r, 1 ≤ r → (runFrom hasAuth mr env r).1 ≠ .allFailed := by
  intro r
  induction r with
  | zero => omega
  | succ r ih =>
    intro _
    have hne := oneAttempt_no_allFailed hasAuth (env (mr - (r + 1)))
    unfold runFrom
    rcases hs : (oneAttempt hasAuth (env (mr - (r + 1)))).1 with o | body | _ | s | m
    all_goals simp only [hs]
    · rw [hs] at hne
      simpa using hne
    · by_cases hr : r = 0
      · rw [if_pos hr]
        simp
      · rw [if_neg hr]
        exact ih (by omega)
    · by_cases hr : r = 0
      · rw [if_pos hr]
        simp
      · rw [if_neg hr]
        exact ih (by omega)
    · by_cases hc : r = 0 ∨ s < 500
      · rw [if_pos hc]
        simp
      · rw [if_neg hc]
        have hr : r ≠ 0 := fun h0 => hc (Or.inl h0)
        exact ih (by omega)
    · by_cases hr : r = 0
      · rw [if_pos hr]
        simp
      · rw [if_neg hr]
        exact ih (by omega)

/-- C9: with maxRetries ≥ 1 the generic all-attempts-failed fall-through of
line 236 is unreachable: `post_data` never ends in the detail-free
`allFailed` outcome, every terminal failure being one of the concrete
classified ones. -/
theorem C9_no_generic_failure (hasAuth : Bool) (mr : Nat)
    (payload : List (String × Json)) (env : Nat → AttemptEnv)
    (hmr : 1 ≤ mr) :
    (post_data hasAuth mr payload env).1 ≠ .allFailed := by
  unfold post_data
  cases hm : requiredFields.filter (fun f => ! hasKey payload f) with
  | nil => exact runFrom_no_allFailed hasAuth mr env mr hmr
  | cons a t => simp

/-- Witness for C9 at a concrete input: one timing-out attempt ends in the
timeout outcome, not the generic failure. -/
theorem C9_no_generic_failure_witness :
    (post_data false 1 okPayload timeoutEnv).1 ≠ .allFailed :=
  C9_no_generic_failure false 1 okPayload timeoutEnv (by omega)

/-- C10: `test_connection` is a total boolean function of the observed
transport behaviour — every exception branch returns false — and it
returns true exactly when the redirect-followed response has status 200
and a JSON dict body whose status field equals success. -/
theorem C10_test_connection (probe : Except TErr ProbeResp) :
    test_connection probe = true ↔
      ∃ kvs, probe = Except.ok ⟨200, some (Json.obj kvs)⟩ ∧
        Json.lookupKey kvs "status" = some (.str "success") := by
  cases probe with
  | error e => simp [test_connection]
  | ok r =>
    obtain ⟨s, body⟩ := r
    by_cases hs : s = 200
    · subst hs
      cases body with
      | none => simp [test_connection]
      | some j => cases j <;> simp [test_connection, isSuccessVal_iff]
    · simp [test_connection, hs]

end GAS

